import Mathlib

/-!
# Verification of image-json-gen

A shallow embedding of the `image-json-gen` repository (TypeScript):

* `src/types.ts` — the prompt document model (`ImageGenerationPrompt` and its
  component interfaces), embedded as Lean structures.  Every "open enumeration"
  field (`StyleOption | (string & {})` and friends) is, at runtime, simply a
  string, so those fields are embedded as `String`.
* `src/index.ts` — the entry point: one literal document, SuperJSON
  serialization with a prepended `$schema` field, and one file write.

JavaScript runtime values produced by the program are modelled by the `Json`
type below; the runtime value of a typed document is computed by the
`toJson` / `toJsonFields` encoders.  Numbers are modelled as rationals
(every numeric literal in the source is exactly representable).
-/

namespace ImageGen

/-- A plain JSON value: the denotation of the JavaScript runtime values this
program builds and writes.  Objects are ordered field lists, mirroring the
insertion order of JavaScript objects; all equality claims proved below are
either between objects produced by the same encoder (so order agrees) or are
stated through key lookup (so order is irrelevant). -/
inductive Json where
  | null : Json
  | bool (b : Bool) : Json
  | num (q : ℚ) : Json
  | str (s : String) : Json
  | arr (elements : List Json) : Json
  | obj (fields : List (String × Json)) : Json

/-- Look up the first binding of key `k` in a JSON object (JavaScript property
access on the decoded value); `none` when the key is absent or the value is
not an object. -/
def Json.lookup (k : String) : Json → Option Json
  | .obj fields => List.lookup k fields
  | _ => none

/-- Remove every binding of key `k` from a JSON object (used to state "the
artifact minus the added `$schema` field"). -/
def Json.removeKey (k : String) : Json → Json
  | .obj fields => .obj (fields.filter (fun p => p.1 != k))
  | j => j

/-- Encode an optional field: a TypeScript optional property that the caller
omits is simply absent from the runtime object, so it contributes no binding;
a present property contributes exactly one binding. -/
def optField {α : Type} (k : String) (f : α → Json) : Option α → List (String × Json)
  | none => []
  | some a => [(k, f a)]

/-- `WidthOption | number`, `HeightOption | number`, `DpiOption | number` from
`src/types.ts`: either one of the labelled string constants or a raw number. -/
inductive NumOrStr where
  | str (s : String) : NumOrStr
  | num (q : ℚ) : NumOrStr
deriving DecidableEq, Repr

/-- `negative_prompt?: string | string[]` from `src/types.ts`. -/
inductive NegativePrompt where
  | str (s : String) : NegativePrompt
  | list (ss : List String) : NegativePrompt
deriving DecidableEq, Repr

/-- `Subject` from `src/types.ts`. -/
structure Subject where
  type : String
  description : String
  pose : String
  position : String
  expression : String
  accessories : Option (List String)
deriving DecidableEq, Repr

/-- `Background` from `src/types.ts`. -/
structure Background where
  environment_type : Option String
  elements : List String
  depth_of_field : String
deriving DecidableEq, Repr

/-- `Camera` from `src/types.ts`. -/
structure Camera where
  angle : String
  distance : String
  lens_type : Option String
  focus : String
deriving DecidableEq, Repr

/-- `Resolution` from `src/types.ts`. -/
structure Resolution where
  width : NumOrStr
  height : NumOrStr
  aspect_ratio : String
  dpi : NumOrStr
  label : Option String
deriving DecidableEq, Repr

/-- `TextOverlay` from `src/types.ts`. -/
structure TextOverlay where
  content : String
  position : String
  style : String
  font_family : String
  font_color : String
  size : String
  opacity : ℚ
  rotation : Option ℚ
deriving DecidableEq, Repr

/-- `ImageGenerationPrompt` from `src/types.ts` (the PromptDocument root). -/
structure ImageGenerationPrompt where
  scene : String
  subjects : List Subject
  style : String
  lighting : String
  mood : String
  background : Background
  composition : String
  camera : Camera
  color_palette : List String
  props : Option (List String)
  resolution : Resolution
  text_overlays : Option (List TextOverlay)
  negative_prompt : Option NegativePrompt
  seed : Option ℚ
  guidance_scale : Option ℚ
  num_inference_steps : Option ℚ
  model_identifier : Option String
deriving DecidableEq, Repr

/-- Runtime denotation of a `WidthOption | number` style union value. -/
def NumOrStr.toJson : NumOrStr → Json
  | .str s => Json.str s
  | .num q => Json.num q

/-- Runtime denotation of a `negative_prompt` value. -/
def NegativePrompt.toJson : NegativePrompt → Json
  | .str s => Json.str s
  | .list ss => Json.arr (ss.map Json.str)

/-- Runtime denotation of a `Subject` value (field order as declared in
`src/types.ts`; an omitted `accessories` contributes no key). -/
def Subject.toJson : Subject → Json
  | ⟨ty, desc, pose, pos, ex, acc⟩ =>
    Json.obj ([("type", Json.str ty),
      ("description", Json.str desc),
      ("pose", Json.str pose),
      ("position", Json.str pos),
      ("expression", Json.str ex)] ++
      optField "accessories" (fun l => Json.arr (l.map Json.str)) acc)

/-- Runtime denotation of a `Background` value. -/
def Background.toJson : Background → Json
  | ⟨env, elems, dof⟩ =>
    Json.obj (optField "environment_type" Json.str env ++
      [("elements", Json.arr (elems.map Json.str)),
       ("depth_of_field", Json.str dof)])

/-- Runtime denotation of a `Camera` value. -/
def Camera.toJson : Camera → Json
  | ⟨angle, dist, lens, focus⟩ =>
    Json.obj ([("angle", Json.str angle),
      ("distance", Json.str dist)] ++
      optField "lens_type" Json.str lens ++
      [("focus", Json.str focus)])

/-- Runtime denotation of a `Resolution` value. -/
def Resolution.toJson : Resolution → Json
  | ⟨w, h, ar, dpi, lbl⟩ =>
    Json.obj ([("width", NumOrStr.toJson w),
      ("height", NumOrStr.toJson h),
      ("aspect_ratio", Json.str ar),
      ("dpi", NumOrStr.toJson dpi)] ++
      optField "label" Json.str lbl)

/-- Runtime denotation of a `TextOverlay` value. -/
def TextOverlay.toJson : TextOverlay → Json
  | ⟨content, pos, style, ff, fc, size, opacity, rot⟩ =>
    Json.obj ([("content", Json.str content),
      ("position", Json.str pos),
      ("style", Json.str style),
      ("font_family", Json.str ff),
      ("font_color", Json.str fc),
      ("size", Json.str size),
      ("opacity", Json.num opacity)] ++
      optField "rotation" Json.num rot)

/-- The field bindings of the runtime object denoted by an
`ImageGenerationPrompt` value: one binding per present field, in the interface
declaration order of `src/types.ts`; omitted optional fields contribute no
binding. -/
def ImageGenerationPrompt.toJsonFields (p : ImageGenerationPrompt) : List (String × Json) :=
  [("scene", Json.str p.scene),
   ("subjects", Json.arr (p.subjects.map Subject.toJson)),
   ("style", Json.str p.style),
   ("lighting", Json.str p.lighting),
   ("mood", Json.str p.mood),
   ("background", Background.toJson p.background),
   ("composition", Json.str p.composition),
   ("camera", Camera.toJson p.camera),
   ("color_palette", Json.arr (p.color_palette.map Json.str))] ++
  optField "props" (fun l => Json.arr (l.map Json.str)) p.props ++
  [("resolution", Resolution.toJson p.resolution)] ++
  optField "text_overlays" (fun l => Json.arr (l.map TextOverlay.toJson)) p.text_overlays ++
  optField "negative_prompt" NegativePrompt.toJson p.negative_prompt ++
  optField "seed" Json.num p.seed ++
  optField "guidance_scale" Json.num p.guidance_scale ++
  optField "num_inference_steps" Json.num p.num_inference_steps ++
  optField "model_identifier" Json.str p.model_identifier

/-- Runtime denotation of an `ImageGenerationPrompt` value. -/
def ImageGenerationPrompt.toJson (p : ImageGenerationPrompt) : Json :=
  Json.obj p.toJsonFields

/-- The fixed schema URL embedded by `src/index.ts` (lines 54-55). -/
def schemaUrl : String :=
  "https://raw.githubusercontent.com/xcaeser/generation-schemas/main/schemas/v1.0.0/image-generation.schema.json"

/-- The object `{ $schema: ..., ...prompt }` built by `src/index.ts` lines
53-57: the spread copies every binding of the document object, in order, after
the freshly added `$schema` binding, into a new object; the document object
itself is left untouched. -/
def serializedDocument (p : ImageGenerationPrompt) : Json :=
  Json.obj (("$schema", Json.str schemaUrl) :: p.toJsonFields)

/-- Modelled from the spec (§4.2, §6): the metadata-preserving serialization
layer (the `superjson` dependency, whose source is not part of this
repository).  The artifact is "a self-describing serialized form preserving
rich value metadata ... not plain JSON-compatible text": a plain-JSON envelope
holding the serialized value under a fixed `json` key, next to which the
format records metadata for any values that exceed plain JSON.  Every field of
this document model is a plain string / number / array / record, so for the
values this program serializes the metadata component is empty and the
envelope carries the single `json` binding.  The written text is modelled by
the JSON value it denotes, so this is the plain-JSON parse of the artifact. -/
def SuperJSON.stringifyJson (v : Json) : Json :=
  Json.obj [("json", v)]

/-- Modelled from the spec (§6): a decoder compatible with the same
metadata-preserving format: it unwraps the `json` binding of the envelope (and
would replay the recorded metadata, of which this program produces none). -/
def SuperJSON.parseJson (artifact : Json) : Option Json :=
  Json.lookup "json" artifact

/-- An I/O error surfaced by the runtime's write primitive. -/
structure IOError where
  message : String
deriving DecidableEq, Repr

/-- A filesystem: paths to the JSON denotation of the file's contents. -/
def FS : Type := String → Option Json

/-- Outcome of the single write attempt, chosen by the environment. -/
inductive WriteOutcome where
  | success : WriteOutcome
  | failure (e : IOError) : WriteOutcome

/-- The invocation surface of the program: command-line flags, environment
variables and an optional configuration file.  `src/index.ts` reads none of
these. -/
structure Env where
  flags : List String
  env_vars : List (String × String)
  config_file : Option Json

/-- Modelled from the spec (§4.2, §7): the runtime write primitive
(`Bun.write` in `src/index.ts` line 59).  A successful write stores the
content at the given path, overwriting any existing file and touching no other
path; a failed write changes nothing and surfaces the underlying I/O error. -/
def bunWrite (fs : FS) (o : WriteOutcome) (path : String) (content : Json) :
    Except IOError Unit × FS :=
  match o with
  | .success => (Except.ok (), fun p => if p = path then some content else fs p)
  | .failure e => (Except.error e, fs)

/-- Shallow embedding of the whole of `src/index.ts`, generalized over the
document (the source's only "configuration" is editing the in-source literal,
so the document is the one input): build `{ $schema, ...doc }`, serialize it
with SuperJSON, and write the result to `prompt.json` — a path relative to
the current working directory — with a single un-guarded write call (the
source installs no error handler, performs no retry and no cleanup).  The
environment `env` is available to the program but never consulted, exactly as
in the source. -/
def runDoc (doc : ImageGenerationPrompt) (env : Env) (fs : FS) (o : WriteOutcome) :
    Except IOError Unit × FS :=
  bunWrite fs o "prompt.json" (SuperJSON.stringifyJson (serializedDocument doc))

/-- The literal document constructed in `src/index.ts` lines 4-51. -/
def prompt : ImageGenerationPrompt where
  scene := "A red smoothie on a premium kitchen countertop"
  background :=
    { environment_type := none
      elements := []
      depth_of_field := "anamorphic bokeh (oval-shaped)" }
  camera :=
    { angle := "crane shot (camera moves vertically on a crane, implies changing perspective)"
      distance := "cutaway shot (briefly shows something other than main action)"
      focus := "follow focus (keeping a moving subject sharp)"
      lens_type := some "prime lens (fixed focal length, often sharper)" }
  color_palette := ["white", "red", "black"]
  lighting := "candlelight (warm, flickering, intimate)"
  composition := "depth (foreground, middle ground, background layers)"
  mood := "cozy and comforting"
  props := some ["none"]
  resolution :=
    { width := NumOrStr.str "4096"
      height := NumOrStr.str "4320"
      aspect_ratio := "16:9"
      dpi := NumOrStr.str "300 (Standard Print)"
      label := none }
  style := "HDR photography (high dynamic range)"
  subjects :=
    [{ description := "A red smoothie in a glass"
       expression := "happy"
       pose := "sitting"
       position := "middle-left midground"
       type := "glass with smoothie"
       accessories := none }]
  text_overlays := some
    [{ content := "A red smoothie on a premium kitchen countertop"
       position := "top-center edge"
       style := "bold"
       size := "large"
       font_color := "gold"
       font_family := "Futura Condensed Bold"
       opacity := (8 : ℚ) / 10
       rotation := some (-15 : ℚ) }]
  guidance_scale := some 10
  negative_prompt := none
  seed := none
  num_inference_steps := none
  model_identifier := none

/-- The fixed entry point of the repository: `src/index.ts` run as-is. -/
def run (env : Env) (fs : FS) (o : WriteOutcome) : Except IOError Unit × FS :=
  runDoc prompt env fs o

/-- The empty invocation environment (no flags, no variables, no config). -/
def emptyEnv : Env := ⟨[], [], none⟩

/-- The empty filesystem. -/
def emptyFS : FS := fun _ => none

/-- A filesystem that already holds a file at `prompt.json` (to exercise the
overwrite behaviour). -/
def preexistingFS : FS :=
  fun p => if p = "prompt.json" then some Json.null else none

/-- The in-source document with its `subjects` sequence emptied. -/
def emptySubjectsDoc : ImageGenerationPrompt :=
  { prompt with subjects := [] }

/-- The in-source document with every optional top-level field omitted
(`guidance_scale` is deliberately kept, exercising the scan past a present
optional field). -/
def bareDoc : ImageGenerationPrompt :=
  { prompt with props := none, text_overlays := none }

/-- No field of a document's runtime object is named `$schema`: the document
model declares seventeen fixed field names, none of which is `$schema`. -/
lemma schema_not_in_keys (v : ImageGenerationPrompt) :
    "$schema" ∉ (ImageGenerationPrompt.toJsonFields v).map Prod.fst := by
  obtain ⟨s, su, st, li, mo, ba, co, ca, cp, pr, re, tov, np, sd, gs, ns, mi⟩ := v
  cases pr <;> cases tov <;> cases np <;> cases sd <;> cases gs <;> cases ns <;> cases mi <;>
    simp [ImageGenerationPrompt.toJsonFields, optField]

/-- Pointwise form of `schema_not_in_keys`. -/
lemma keys_ne_schema (v : ImageGenerationPrompt) :
    ∀ p ∈ ImageGenerationPrompt.toJsonFields v, p.1 ≠ "$schema" := by
  intro p hp e
  exact schema_not_in_keys v (e ▸ List.mem_map_of_mem Prod.fst hp)

/-- Filtering out a key that no binding carries leaves a field list intact. -/
lemma filter_ne_key_eq_self {k : String} {l : List (String × Json)}
    (h : ∀ p ∈ l, p.1 ≠ k) : l.filter (fun p => p.1 != k) = l := by
  induction l with
  | nil => rfl
  | cons a t ih =>
    have ha : (a.1 != k) = true := by
      simpa [bne_iff_ne] using h a (List.mem_cons_self a t)
    simp [List.filter_cons, ha, ih (fun p hp => h p (List.mem_cons_of_mem a hp))]

/-- Looking up a key that no binding carries yields `none`. -/
lemma lookup_eq_none_of_keys_ne {k : String} {l : List (String × Json)}
    (h : ∀ p ∈ l, p.1 ≠ k) : List.lookup k l = none := by
  induction l with
  | nil => rfl
  | cons a t ih =>
    obtain ⟨a1, a2⟩ := a
    have ha : (k == a1) = false := by
      have h1 := h ⟨a1, a2⟩ (List.mem_cons_self _ t)
      simp only [ne_eq] at h1
      exact beq_eq_false_iff_ne.mpr (fun e => h1 e.symm)
    simp [List.lookup, ha, ih (fun p hp => h p (List.mem_cons_of_mem _ hp))]

/-- The serialized object minus the added `$schema` binding is exactly the
caller's document object. -/
lemma removeKey_schema (v : ImageGenerationPrompt) :
    Json.removeKey "$schema" (serializedDocument v) = ImageGenerationPrompt.toJson v := by
  simp only [serializedDocument, Json.removeKey, List.filter_cons]
  have hh : (("$schema", Json.str schemaUrl).1 != "$schema") = false := by simp
  rw [hh]
  simp only [ImageGenerationPrompt.toJson, Bool.false_eq_true, if_false]
  rw [filter_ne_key_eq_self (keys_ne_schema v)]

/-- C1: for every valid PromptDocument value `V`, serializing `V` and decoding
the artifact with the compatible metadata-preserving decoder yields a value
deep-equal to `V` — removing the one added binding gives back exactly the
runtime object of `V` — with exactly one added top-level field `$schema`
holding the fixed schema URL string (the field heads the object and occurs in
none of the document's own bindings). -/
theorem serialize_roundtrip_adds_schema (v : ImageGenerationPrompt) :
    SuperJSON.parseJson (SuperJSON.stringifyJson (serializedDocument v)) =
      some (Json.obj (("$schema", Json.str schemaUrl) ::
        ImageGenerationPrompt.toJsonFields v)) ∧
    "$schema" ∉ (ImageGenerationPrompt.toJsonFields v).map Prod.fst ∧
    Json.removeKey "$schema" (serializedDocument v) = ImageGenerationPrompt.toJson v :=
  ⟨rfl, schema_not_in_keys v, removeKey_schema v⟩

/-- C2 (amended): the artifact, read as plain JSON, is the metadata envelope —
a single top-level `json` binding holding the document (with its `$schema`
field); the document's field values are recovered intact from under that
binding, but they are not the top level of the plain-JSON view, whereas the
metadata-preserving decoder yields the document itself. -/
theorem plain_json_envelope (v : ImageGenerationPrompt) :
    SuperJSON.stringifyJson (serializedDocument v) =
      Json.obj [("json", serializedDocument v)] ∧
    SuperJSON.parseJson (SuperJSON.stringifyJson (serializedDocument v)) =
      some (serializedDocument v) ∧
    Json.lookup "json" (SuperJSON.stringifyJson (serializedDocument v)) =
      some (serializedDocument v) ∧
    Json.lookup "scene" (SuperJSON.stringifyJson (serializedDocument v)) = none :=
  ⟨rfl, rfl, rfl, rfl⟩

/-- C2 (counterexample): for the in-source document, the metadata-preserving
decode of the artifact carries the `scene` field, but the plain-JSON view of
the very same artifact has no top-level `scene` key — so plain JSON parsing
does not recover the same document field values as the compatible decoder. -/
theorem plain_json_counterexample :
    Json.lookup "scene" (SuperJSON.stringifyJson (serializedDocument prompt)) = none ∧
    SuperJSON.parseJson (SuperJSON.stringifyJson (serializedDocument prompt)) =
      some (serializedDocument prompt) ∧
    Json.lookup "scene" (serializedDocument prompt) =
      some (Json.str "A red smoothie on a premium kitchen countertop") :=
  ⟨rfl, rfl, rfl⟩

/-- C3: when the single write fails, the run surfaces the underlying I/O
error unmodified (the source installs no handler, retries nothing) and the
filesystem is exactly as before: no artifact, no partial file. -/
theorem write_error_propagated (env : Env) (fs : FS) (e : IOError) :
    run env fs (WriteOutcome.failure e) = (Except.error e, fs) := rfl

/-- C4: the Serializer does not mutate the caller's document: the `$schema`
augmentation builds a new object (the spread in `src/index.ts` copies the
bindings), and stripping the added binding from the serialized object yields
the caller's runtime object with every field unchanged — in particular the
original object never acquires a `$schema` binding. -/
theorem serializer_does_not_mutate (v : ImageGenerationPrompt) :
    Json.removeKey "$schema" (serializedDocument v) = ImageGenerationPrompt.toJson v ∧
    Json.lookup "$schema" ( ImageGenerationPrompt.toJson v) = none := by
  refine ⟨removeKey_schema v, ?_⟩
  simp only [ImageGenerationPrompt.toJson, Json.lookup]
  exact lookup_eq_none_of_keys_ne (keys_ne_schema v)

/-- C5: a successful run writes exactly one artifact, at the fixed relative
location `prompt.json`, overwriting whatever was there (the resulting content
does not depend on the previous filesystem), and leaves every other path
untouched. -/
theorem single_artifact_written (env : Env) (fs : FS) :
    (run env fs WriteOutcome.success).1 = Except.ok () ∧
    (run env fs WriteOutcome.success).2 "prompt.json" =
      some (SuperJSON.stringifyJson (serializedDocument prompt)) ∧
    ∀ p : String, p ≠ "prompt.json" → (run env fs WriteOutcome.success).2 p = fs p := by
  refine ⟨rfl, rfl, fun p hp => ?_⟩
  simp [run, runDoc, bunWrite, hp]

/-- C5 (witness): on a filesystem that already holds a `prompt.json`, the run
overwrites it with the artifact and leaves a distinct path untouched. -/
theorem single_artifact_written_witness :
    (run emptyEnv preexistingFS WriteOutcome.success).2 "prompt.json" =
      some (SuperJSON.stringifyJson (serializedDocument prompt)) ∧
    (run emptyEnv preexistingFS WriteOutcome.success).2 "other.txt" = none := by
  obtain ⟨h1, h2, h3⟩ := single_artifact_written emptyEnv preexistingFS
  refine ⟨h2, ?_⟩
  rw [h3 "other.txt" (by decide)]
  rfl

/-- C6: the concrete entry-point run: the in-source document (scene "A red
smoothie on a premium kitchen countertop", one Subject, width "4096", height
"4320", aspect ratio "16:9") serializes to an artifact that decodes to the
document plus a `$schema` field holding the fixed schema URL, with every
other field equal to the constructed input. -/
theorem entrypoint_end_to_end :
    SuperJSON.parseJson (SuperJSON.stringifyJson (serializedDocument prompt)) =
      some (serializedDocument prompt) ∧
    Json.lookup "$schema" (serializedDocument prompt) =
      some (Json.str
        "https://raw.githubusercontent.com/xcaeser/generation-schemas/main/schemas/v1.0.0/image-generation.schema.json") ∧
    Json.removeKey "$schema" (serializedDocument prompt) =
      ImageGenerationPrompt.toJson prompt ∧
    Json.lookup "scene" (serializedDocument prompt) =
      some (Json.str "A red smoothie on a premium kitchen countertop") ∧
    prompt.subjects.length = 1 ∧
    Json.lookup "resolution" (serializedDocument prompt) =
      some ( Resolution.toJson prompt.resolution) ∧
    Json.lookup "width" ( Resolution.toJson prompt.resolution) =
      some (Json.str "4096") ∧
    Json.lookup "height" ( Resolution.toJson prompt.resolution) =
      some (Json.str "4320") ∧
    Json.lookup "aspect_ratio" ( Resolution.toJson prompt.resolution) =
      some (Json.str "16:9") :=
  ⟨rfl, rfl, by rfl, rfl, rfl, rfl, rfl, rfl, rfl⟩

/-- C7: serialization is deterministic and depends only on the document
value: runs under any two invocation environments (flags, environment
variables, configuration file) are identical, and serializing the same value
twice yields artifacts that decode to equal values — namely the
schema-augmented document itself. -/
theorem serialization_deterministic (v : ImageGenerationPrompt) (e1 e2 : Env)
    (fs : FS) (o : WriteOutcome) :
    runDoc v e1 fs o = runDoc v e2 fs o ∧
    SuperJSON.parseJson (SuperJSON.stringifyJson (serializedDocument v)) =
      SuperJSON.parseJson (SuperJSON.stringifyJson (serializedDocument v)) ∧
    SuperJSON.parseJson (SuperJSON.stringifyJson (serializedDocument v)) =
      some (serializedDocument v) :=
  ⟨rfl, rfl, rfl⟩

/-- C8: a TextOverlay's opacity is preserved exactly by serialization for
every rational value — including 0, 1, and any value outside [0, 1], since
the opacity field ranges over all of ℚ — and serialization never rejects a
document: decoding the artifact always succeeds and returns the augmented
document unchanged. No clamping and no validation exist anywhere in the
pipeline. -/
theorem opacity_preserved (t : TextOverlay) (v : ImageGenerationPrompt) :
    Json.lookup "opacity" ( TextOverlay.toJson t) = some (Json.num t.opacity) ∧
    SuperJSON.parseJson (SuperJSON.stringifyJson (serializedDocument v)) =
      some (serializedDocument v) := by
  constructor
  · rcases t with ⟨c, p, s, ff, fc, sz, o, r⟩
    simp [TextOverlay.toJson, Json.lookup, List.lookup]
  · rfl

/-- C9: the conceptual `subjects.length ≥ 1` requirement is not enforced at
runtime: a document with an empty subjects sequence serializes and writes
without error, and the empty sequence is preserved in the artifact. -/
theorem empty_subjects_accepted (v : ImageGenerationPrompt) (env : Env) (fs : FS)
    (h : v.subjects = []) :
    (runDoc v env fs WriteOutcome.success).1 = Except.ok () ∧
    (runDoc v env fs WriteOutcome.success).2 "prompt.json" =
      some (SuperJSON.stringifyJson (serializedDocument v)) ∧
    Json.lookup "subjects" (serializedDocument v) = some (Json.arr []) := by
  refine ⟨rfl, rfl, ?_⟩
  show some (Json.arr (v.subjects.map Subject.toJson)) = some (Json.arr [])
  rw [h]
  rfl

/-- C9 (witness): the in-source document with `subjects := []` runs
successfully and its artifact carries the empty subjects array. -/
theorem empty_subjects_accepted_witness :
    (runDoc emptySubjectsDoc emptyEnv emptyFS WriteOutcome.success).1 = Except.ok () ∧
    (runDoc emptySubjectsDoc emptyEnv emptyFS WriteOutcome.success).2 "prompt.json" =
      some (SuperJSON.stringifyJson (serializedDocument emptySubjectsDoc)) ∧
    Json.lookup "subjects" (serializedDocument emptySubjectsDoc) =
      some (Json.arr []) :=
  empty_subjects_accepted emptySubjectsDoc emptyEnv emptyFS rfl

/-- C10: optional fields the caller omits stay absent from the serialized
artifact: the decoded value has no such key at all (rather than a key bound
to null or a default) — at the top level for `seed`, `num_inference_steps`,
`model_identifier`, `negative_prompt`, `props` and `text_overlays`, and in
the nested objects for `resolution.label`, a subject's `accessories`, the
background's `environment_type` and an overlay's `rotation`. -/
theorem omitted_optionals_absent (v : ImageGenerationPrompt)
    (w hgt dp : NumOrStr) (ar : String)
    (ty de po ps ex : String) (el : List String) (dof : String)
    (c ps2 sty ff fc sz : String) (op : ℚ)
    (h1 : v.seed = none) (h2 : v.num_inference_steps = none)
    (h3 : v.model_identifier = none) (h4 : v.negative_prompt = none)
    (h5 : v.props = none) (h6 : v.text_overlays = none) :
    SuperJSON.parseJson (SuperJSON.stringifyJson (serializedDocument v)) =
      some (serializedDocument v) ∧
    Json.lookup "seed" (serializedDocument v) = none ∧
    Json.lookup "num_inference_steps" (serializedDocument v) = none ∧
    Json.lookup "model_identifier" (serializedDocument v) = none ∧
    Json.lookup "negative_prompt" (serializedDocument v) = none ∧
    Json.lookup "props" (serializedDocument v) = none ∧
    Json.lookup "text_overlays" (serializedDocument v) = none ∧
    Json.lookup "label" ( Resolution.toJson ⟨w, hgt, ar, dp, none⟩) = none ∧
    Json.lookup "accessories" ( Subject.toJson ⟨ty, de, po, ps, ex, none⟩) = none ∧
    Json.lookup "environment_type" ( Background.toJson ⟨none, el, dof⟩) = none ∧
    Json.lookup "rotation" ( TextOverlay.toJson ⟨c, ps2, sty, ff, fc, sz, op, none⟩) =
      none := by
  obtain ⟨s0, su, st, li, mo, ba, co, ca, cp, pr, re, tov, np, sd, gs, ns, mi⟩ := v
  simp only at h1 h2 h3 h4 h5 h6
  subst h1 h2 h3 h4 h5 h6
  cases gs <;> exact ⟨rfl, rfl, rfl, rfl, rfl, rfl, rfl, rfl, rfl, rfl, rfl⟩

/-- C10 (witness): the in-source document with `props` and `text_overlays`
also omitted (its other four top-level optionals are already omitted, while
`guidance_scale` stays present) serializes with none of the omitted keys in
the artifact, and the nested omitted optionals of concrete component values
are likewise absent. -/
theorem omitted_optionals_absent_witness :
    SuperJSON.parseJson (SuperJSON.stringifyJson (serializedDocument bareDoc)) =
      some (serializedDocument bareDoc) ∧
    Json.lookup "seed" (serializedDocument bareDoc) = none ∧
    Json.lookup "num_inference_steps" (serializedDocument bareDoc) = none ∧
    Json.lookup "model_identifier" (serializedDocument bareDoc) = none ∧
    Json.lookup "negative_prompt" (serializedDocument bareDoc) = none ∧
    Json.lookup "props" (serializedDocument bareDoc) = none ∧
    Json.lookup "text_overlays" (serializedDocument bareDoc) = none ∧
    Json.lookup "label"
      ( Resolution.toJson ⟨NumOrStr.num 512, NumOrStr.num 512, "1:1", NumOrStr.num 72, none⟩) =
      none ∧
    Json.lookup "accessories"
      ( Subject.toJson ⟨"cat", "a small cat", "sitting", "center", "calm", none⟩) = none ∧
    Json.lookup "environment_type"
      ( Background.toJson ⟨none, ["table"], "shallow"⟩) = none ∧
    Json.lookup "rotation"
      ( TextOverlay.toJson ⟨"hi", "center of image", "bold", "Arial", "white", "large",
        (1 : ℚ) / 2, none⟩) = none :=
  omitted_optionals_absent bareDoc (NumOrStr.num 512) (NumOrStr.num 512) (NumOrStr.num 72)
    "1:1" "cat" "a small cat" "sitting" "center" "calm" ["table"] "shallow"
    "hi" "center of image" "bold" "Arial" "white" "large" ((1 : ℚ) / 2)
    rfl rfl rfl rfl rfl rfl

end ImageGen
